import Mathlib

/-!
Verification of the café ordering app (React frontend; FastAPI backend).

The repository snapshot contains the frontend sources: the admin dashboard
(src/unnamed/part_000), the cart context (src/unnamed/part_003), and the
customer pages OrderStatusPage / CartPage / OrderPage
(src/frontend/src/components/admin/ProtectedRoute.js).  The backend order
service and transition validator are described by the spec but their code is
not in the snapshot; the definitions for them below are modelled from the
spec's words and say so in their doc comments.
-/

namespace CafeApp

/-- The order status enum (STATUS_CONFIG keys, src/unnamed/part_000 lines 13-20). -/
inductive Status where
  | pending
  | accepted
  | preparing
  | ready
  | completed
  | cancelled
deriving DecidableEq, Repr, Fintype

/-- The client-side NEXT_STATUS map (src/unnamed/part_000 lines 22-27).
A status absent from the JS object literal maps to none. -/
def NEXT_STATUS : Status → Option Status
  | .pending => some .accepted
  | .accepted => some .preparing
  | .preparing => some .ready
  | .ready => some .completed
  | .completed => none
  | .cancelled => none

/-- A status is terminal when it is completed or cancelled (spec §4.1). -/
def Status.isTerminal : Status → Bool
  | .completed => true
  | .cancelled => true
  | _ => false

/-- Modelled from the spec: the Transition Validator (§4.1) is backend code
absent from the snapshot.  Forward edges pending→accepted→preparing→ready→
completed, plus an edge from every non-terminal state to cancelled; no other
edges. -/
def validTransition : Status → Status → Bool
  | .pending, .accepted => true
  | .accepted, .preparing => true
  | .preparing, .ready => true
  | .ready, .completed => true
  | .pending, .cancelled => true
  | .accepted, .cancelled => true
  | .preparing, .cancelled => true
  | .ready, .cancelled => true
  | _, _ => false

/-- The forward edges of the state machine, as listed by the spec. -/
def forwardEdges : List (Status × Status) :=
  [(.pending, .accepted), (.accepted, .preparing),
   (.preparing, .ready), (.ready, .completed)]

/-- Whether the admin dashboard renders the advance button for an order of
this status (src/unnamed/part_000 lines 271-285: the block is guarded by
status ≠ completed ∧ status ≠ cancelled, and the button by nextStatus). -/
def advanceButtonShown (s : Status) : Bool :=
  (s != .completed && s != .cancelled) && (NEXT_STATUS s).isSome

/-- Whether the admin dashboard renders the cancel button for an order of
this status (src/unnamed/part_000 lines 271, 286-294). -/
def cancelButtonShown (s : Status) : Bool :=
  s != .completed && s != .cancelled

/-- The statuses updateOrderStatus can be invoked with from an order card of
the given status: the advance button requests NEXT_STATUS, the cancel button
requests cancelled (src/unnamed/part_000 lines 276, 289). -/
def requestedStatuses (s : Status) : List Status :=
  (if advanceButtonShown s then (NEXT_STATUS s).toList else []) ++
  (if cancelButtonShown s then [Status.cancelled] else [])

/-- An order line as serialized in an order payload. -/
structure OrderLine where
  menuItemId : String
  name : String
  price : ℚ
  quantity : ℤ
  deriving DecidableEq, Repr

/-- An order record as the clients receive it. -/
structure Order where
  id : String
  tableNumber : ℕ
  status : Status
  items : List OrderLine
  subtotal : ℚ
  tax : ℚ
  total : ℚ
  updatedAt : ℕ
  deriving DecidableEq, Repr

/-- The error taxonomy of a transition request (spec §7). -/
inductive TransitionError where
  | invalidTransition
  | notFound
  | conflict
  deriving DecidableEq, Repr

/-- Modelled from the spec: the Order Service transition (§4.2) is backend
code absent from the snapshot.  It loads the current order, validates the
requested edge; if rejected it fails with InvalidTransition and performs no
write; if accepted it writes the new status and updatedAt.  The result pairs
the response with the persisted record after the request. -/
def transition (store : Order) (requested : Status) (now : ℕ) :
    Except TransitionError Order × Order :=
  if validTransition store.status requested then
    let updated := { store with status := requested, updatedAt := now }
    (Except.ok updated, updated)
  else
    (Except.error TransitionError.invalidTransition, store)

/-- The admin dashboard new_order SSE handler: prepends the payload to the
held list (src/unnamed/part_000 lines 64-66). -/
def newOrderHandler (payload : Order) (orders : List Order) : List Order :=
  payload :: orders

/-- The admin dashboard order_updated SSE handler: replaces the order with
matching id by the payload (src/unnamed/part_000 lines 78-81). -/
def orderUpdatedHandler (payload : Order) (orders : List Order) : List Order :=
  orders.map (fun o => if o.id == payload.id then payload else o)

/-- The customer order-status page status_update SSE handler: replaces the
held order by the payload's order snapshot (ProtectedRoute.js lines 209-218). -/
def statusUpdateHandler (payload : Order) (_held : Option Order) : Option Order :=
  some payload

/-- The reconnect delay both SSE onerror handlers pass to setTimeout
(src/unnamed/part_000 line 85; ProtectedRoute.js line 223). -/
def reconnectDelayMs : ℕ := 5000

/-- The admin dashboard's client-held state relevant to orders and the SSE
stream (src/unnamed/part_000 lines 29-94): the orders list, whether an
EventSource is open, the delays of the reconnect timers currently scheduled,
and how many synchronous fetches of the full list have run. -/
structure AdminClient where
  orders : List Order
  connected : Bool
  scheduledReconnects : List ℕ
  fetchCount : ℕ
  deriving DecidableEq, Repr

/-- The external happenings an AdminDashboard instance reacts to. -/
inductive AdminEvent where
  | mount (fetched : List Order)
  | sseNewOrder (o : Order)
  | sseOrderUpdated (o : Order)
  | streamError
  | reconnectFired
  deriving DecidableEq, Repr

/-- One step of the admin dashboard, from the handlers in
src/unnamed/part_000: mount runs fetchOrders and connectSSE (lines 55-57,
89); the two SSE listeners update the list (lines 64-81); onerror closes the
source and schedules connectSSE after 5000 ms without touching the list
(lines 83-86); the fired timer reopens the stream and fetches nothing
(lines 61-87). -/
def adminStep (e : AdminEvent) (s : AdminClient) : AdminClient :=
  match e with
  | .mount fetched =>
      { s with orders := fetched, fetchCount := s.fetchCount + 1, connected := true }
  | .sseNewOrder o => { s with orders := newOrderHandler o s.orders }
  | .sseOrderUpdated o => { s with orders := orderUpdatedHandler o s.orders }
  | .streamError =>
      { s with connected := false,
               scheduledReconnects := reconnectDelayMs :: s.scheduledReconnects }
  | .reconnectFired =>
      { s with connected := true,
               scheduledReconnects := s.scheduledReconnects.drop 1 }

/-- The customer order-status page's client-held state (ProtectedRoute.js
lines 173-232). -/
structure CustomerClient where
  order : Option Order
  connected : Bool
  scheduledReconnects : List ℕ
  fetchCount : ℕ
  deriving DecidableEq, Repr

/-- The external happenings an OrderStatusPage instance reacts to. -/
inductive CustomerEvent where
  | mount (fetched : Option Order)
  | sseStatusUpdate (o : Order)
  | streamError
  | reconnectFired
  deriving DecidableEq, Repr

/-- One step of the customer order-status page, from the handlers in
ProtectedRoute.js: mount runs fetchData and connectSSE (lines 182-200, 227);
the status_update listener replaces the held order (lines 209-218); onerror
closes the source and schedules connectSSE after 5000 ms without touching the
order (lines 220-224); the fired timer reopens the stream and fetches
nothing (lines 206-225). -/
def customerStep (e : CustomerEvent) (s : CustomerClient) : CustomerClient :=
  match e with
  | .mount fetched =>
      { s with order := fetched, fetchCount := s.fetchCount + 1, connected := true }
  | .sseStatusUpdate o => { s with order := statusUpdateHandler o s.order }
  | .streamError =>
      { s with connected := false,
               scheduledReconnects := reconnectDelayMs :: s.scheduledReconnects }
  | .reconnectFired =>
      { s with connected := true,
               scheduledReconnects := s.scheduledReconnects.drop 1 }

/-- A selected modifier choice as the order page builds it
(ProtectedRoute.js lines 858-871): modifier name plus the option's label and
price. -/
structure Modifier where
  modifierName : String
  label : String
  price : ℚ
  deriving DecidableEq, Repr

/-- The fields of a menu item addToCart reads (src/unnamed/part_003
lines 51-59). -/
structure MenuItem where
  id : String
  name : String
  price : ℚ
  imageUrl : String
  deriving DecidableEq, Repr

/-- A cart line as addToCart stores it (src/unnamed/part_003 lines 51-60). -/
structure CartItem where
  menuItemId : String
  name : String
  price : ℚ
  basePrice : ℚ
  quantity : ℤ
  notes : String
  modifiers : List Modifier
  imageUrl : String
  deriving DecidableEq, Repr

/-- The duplicate-line test addToCart uses (src/unnamed/part_003
lines 36-41): same menuItemId, same notes, and modifier lists with equal
JSON serializations — which, for lists built by handleModifierToggle with a
fixed field order, is list equality. -/
def sameLine (item : MenuItem) (notes : String) (selectedModifiers : List Modifier)
    (cartItem : CartItem) : Bool :=
  cartItem.menuItemId == item.id && cartItem.notes == notes &&
    cartItem.modifiers == selectedModifiers

/-- CartContext.addToCart (src/unnamed/part_003 lines 34-62): merge into the
first matching line, else append a new line whose price folds in the
modifier price deltas. -/
def addToCart (cart : List CartItem) (item : MenuItem) (quantity : ℤ)
    (notes : String) (selectedModifiers : List Modifier) : List CartItem :=
  match cart.findIdx? (sameLine item notes selectedModifiers) with
  | some existingIndex =>
      match cart[existingIndex]? with
      | some existing =>
          cart.set existingIndex { existing with quantity := existing.quantity + quantity }
      | none => cart
  | none =>
      let modifierPrice := selectedModifiers.foldl (fun sum m => sum + m.price) 0
      cart ++ [{ menuItemId := item.id, name := item.name,
                 price := item.price + modifierPrice, basePrice := item.price,
                 quantity := quantity, notes := notes,
                 modifiers := selectedModifiers, imageUrl := item.imageUrl }]

/-- CartContext.removeFromCart (src/unnamed/part_003 lines 76-78):
keep every line whose position differs from the given index. -/
def removeFromCart (cart : List CartItem) (index : ℕ) : List CartItem :=
  ((cart.enum).filter (fun p => p.1 ≠ index)).map (fun p => p.2)

/-- CartContext.updateQuantity (src/unnamed/part_003 lines 64-74): a
non-positive quantity removes the line, otherwise the line's quantity is
replaced. -/
def updateQuantity (cart : List CartItem) (index : ℕ) (quantity : ℤ) :
    List CartItem :=
  if quantity ≤ 0 then
    removeFromCart cart index
  else
    match cart[index]? with
    | some existing => cart.set index { existing with quantity := quantity }
    | none => cart

/-- CartContext.clearCart (src/unnamed/part_003 lines 80-83). -/
def clearCart (_cart : List CartItem) : List CartItem := []

/-- CartContext.getTotal (src/unnamed/part_003 lines 85-87). -/
def getTotal (cart : List CartItem) : ℚ :=
  cart.foldl (fun sum item => sum + item.price * (item.quantity : ℚ)) 0

/-- The Settings fields the cart page reads. -/
structure Settings where
  taxRate : ℚ
  serviceFee : ℚ
  deriving DecidableEq, Repr

/-- The tax rate CartPage uses: JS settings?.taxRate || 0.08, which falls
back to 0.08 when settings is absent or its taxRate is falsy, i.e. zero
(ProtectedRoute.js line 485). -/
def effectiveTaxRate (settings : Option Settings) : ℚ :=
  match settings with
  | none => 8 / 100
  | some st => if st.taxRate = 0 then 8 / 100 else st.taxRate

/-- The service fee CartPage uses: JS settings?.serviceFee || 0
(ProtectedRoute.js line 487). -/
def effectiveServiceFee (settings : Option Settings) : ℚ :=
  match settings with
  | none => 0
  | some st => if st.serviceFee = 0 then 0 else st.serviceFee

/-- CartPage's subtotal (ProtectedRoute.js line 484). -/
def cartSubtotal (cart : List CartItem) : ℚ := getTotal cart

/-- CartPage's tax (ProtectedRoute.js line 486). -/
def cartTax (cart : List CartItem) (settings : Option Settings) : ℚ :=
  cartSubtotal cart * effectiveTaxRate settings

/-- CartPage's total (ProtectedRoute.js line 488). -/
def cartTotal (cart : List CartItem) (settings : Option Settings) : ℚ :=
  cartSubtotal cart + cartTax cart settings + effectiveServiceFee settings

/-- The spec's subtotal equation, Σ line.price × line.quantity, written
independently of the foldl the code uses. -/
def specSubtotal (cart : List CartItem) : ℚ :=
  (cart.map (fun line => line.price * (line.quantity : ℚ))).sum

/-- A CartContext operation, for stating invariants over operation
sequences. -/
inductive CartOp where
  | add (item : MenuItem) (quantity : ℤ) (notes : String)
        (selectedModifiers : List Modifier)
  | update (index : ℕ) (quantity : ℤ)
  | remove (index : ℕ)
  | clear
  deriving Repr

/-- Run one CartContext operation. -/
def applyCartOp (cart : List CartItem) : CartOp → List CartItem
  | .add item quantity notes mods => addToCart cart item quantity notes mods
  | .update index quantity => updateQuantity cart index quantity
  | .remove index => removeFromCart cart index
  | .clear => clearCart cart

/-- Run a sequence of CartContext operations. -/
def applyCartOps (cart : List CartItem) (ops : List CartOp) : List CartItem :=
  ops.foldl applyCartOp cart

/-- An operation respects the claim's precondition that addToCart is called
with quantity at least 1. -/
def CartOp.addsPositive : CartOp → Bool
  | .add _ quantity _ _ => decide (1 ≤ quantity)
  | _ => true

/-- A sample pending order used to instantiate proved theorems at a concrete
input. -/
def sampleOrder : Order :=
  { id := "order-0001", tableNumber := 4, status := Status.pending,
    items := [{ menuItemId := "m1", name := "Burger", price := 5, quantity := 2 }],
    subtotal := 10, tax := 4 / 5, total := 54 / 5, updatedAt := 0 }

/-- The same order after the kitchen accepted it. -/
def sampleAccepted : Order := { sampleOrder with status := Status.accepted, updatedAt := 1 }

/-- The same order when ready. -/
def sampleReady : Order := { sampleOrder with status := Status.ready, updatedAt := 2 }

/-- C1: The order status transition relation contains exactly the forward
edges pending→accepted→preparing→ready→completed plus an edge from every
non-terminal state to cancelled, and no other edges; pending→ready is not an
edge and completed has no outgoing edge; NEXT_STATUS encodes exactly the
forward edges (one successor per non-terminal state, none for completed or
cancelled). -/
theorem transition_relation_exact :
    (∀ c r : Status, validTransition c r = true ↔
        ((c, r) ∈ forwardEdges ∨ (c.isTerminal = false ∧ r = Status.cancelled))) ∧
    (∀ s t : Status, NEXT_STATUS s = some t ↔ (s, t) ∈ forwardEdges) ∧
    validTransition Status.pending Status.ready = false ∧
    (∀ r : Status, validTransition Status.completed r = false) ∧
    (∀ s : Status, s.isTerminal = false ↔ (NEXT_STATUS s).isSome) ∧
    NEXT_STATUS Status.completed = none ∧ NEXT_STATUS Status.cancelled = none := by
  decide

/-- C2: completed and cancelled are terminal in the admin dashboard: for an
order in either state neither the advance nor the cancel button is rendered,
so no status update is requested from its card; for every non-terminal
status the cancel action is offered, and every status the card can request
is a legal transition. -/
theorem terminal_states_request_nothing :
    ∀ s : Status,
      (s.isTerminal = true →
        advanceButtonShown s = false ∧ cancelButtonShown s = false ∧
        requestedStatuses s = []) ∧
      (s.isTerminal = false →
        cancelButtonShown s = true ∧ Status.cancelled ∈ requestedStatuses s) ∧
      (∀ r ∈ requestedStatuses s, validTransition s r = true) := by
  decide

/-- C3: for an order persisted with status pending, a transition request to
ready fails with InvalidTransition and performs no write: the persisted
record after the failed request equals the record before it, in every
field. -/
theorem pending_to_ready_rejected (store : Order) (now : ℕ)
    (h : store.status = Status.pending) :
    (transition store Status.ready now).1 =
        Except.error TransitionError.invalidTransition ∧
    (transition store Status.ready now).2 = store := by
  simp [transition, h, validTransition]

/-- C3 witness: the rejection at a concrete pending order. -/
theorem pending_to_ready_rejected_witness :
    (transition sampleOrder Status.ready 99).1 =
        Except.error TransitionError.invalidTransition ∧
    (transition sampleOrder Status.ready 99).2 = sampleOrder :=
  pending_to_ready_rejected sampleOrder 99 rfl

/-- C6: on every stream error, both the admin dashboard and the customer
order-status page close the connection and schedule exactly one reconnect
attempt with the fixed delay of 5000 ms, whatever the client's state — so
there is no backoff growth, no jitter and no retry cap. -/
theorem fixed_delay_reconnect_policy :
    (∀ a : AdminClient,
      (adminStep AdminEvent.streamError a).scheduledReconnects =
          reconnectDelayMs :: a.scheduledReconnects ∧
      (adminStep AdminEvent.streamError a).connected = false) ∧
    (∀ c : CustomerClient,
      (customerStep CustomerEvent.streamError c).scheduledReconnects =
          reconnectDelayMs :: c.scheduledReconnects ∧
      (customerStep CustomerEvent.streamError c).connected = false) ∧
    reconnectDelayMs = 5000 := by
  refine ⟨fun a => ?_, fun c => ?_, rfl⟩ <;> simp [adminStep, customerStep]

/-- Replacing the order with a given id twice, by payloads carrying the same
id, is the same as replacing it once with the later payload. -/
theorem orderUpdatedHandler_last_write_wins (u₁ u₂ : Order) (h : u₁.id = u₂.id)
    (orders : List Order) :
    orderUpdatedHandler u₂ (orderUpdatedHandler u₁ orders) =
      orderUpdatedHandler u₂ orders := by
  induction orders with
  | nil => rfl
  | cons a t ih =>
      simp only [orderUpdatedHandler, List.map_cons] at ih ⊢
      refine congrArg₂ _ ?_ ih
      by_cases ha : a.id = u₁.id
      · simp [ha, h]
      · simp [ha]

/-- C4 counterexample: the admin dashboard new_order handler is not
idempotent — delivered twice with the same payload it holds the order twice,
not once. -/
theorem new_order_handler_not_idempotent :
    newOrderHandler sampleOrder (newOrderHandler sampleOrder []) ≠
      newOrderHandler sampleOrder [] := by
  intro hEq
  have hLen := congrArg List.length hEq
  simp [newOrderHandler] at hLen

/-- C4 (amended): the snapshot-replacement handlers are idempotent and
last-write-wins — for the admin order_updated handler and the customer
status_update handler, applying the same event twice equals applying it
once, and applying the later of two same-id snapshots after missing the
earlier one yields the state reached having seen both; the admin new_order
handler, by contrast, prepends on every delivery, so a duplicate delivery
duplicates the list entry. -/
theorem snapshot_event_consumption (u₁ u₂ : Order) (orders : List Order)
    (held : Option Order) (h : u₁.id = u₂.id) :
    orderUpdatedHandler u₁ (orderUpdatedHandler u₁ orders) =
        orderUpdatedHandler u₁ orders ∧
    orderUpdatedHandler u₂ (orderUpdatedHandler u₁ orders) =
        orderUpdatedHandler u₂ orders ∧
    statusUpdateHandler u₁ (statusUpdateHandler u₁ held) =
        statusUpdateHandler u₁ held ∧
    newOrderHandler u₁ (newOrderHandler u₁ orders) = u₁ :: u₁ :: orders := by
  exact ⟨orderUpdatedHandler_last_write_wins u₁ u₁ rfl orders,
         orderUpdatedHandler_last_write_wins u₁ u₂ h orders, rfl, rfl⟩

/-- C4 witness: the amended properties at two concrete same-id snapshots of
the sample order. -/
theorem snapshot_event_consumption_witness :
    orderUpdatedHandler sampleAccepted (orderUpdatedHandler sampleAccepted [sampleOrder]) =
        orderUpdatedHandler sampleAccepted [sampleOrder] ∧
    orderUpdatedHandler sampleReady (orderUpdatedHandler sampleAccepted [sampleOrder]) =
        orderUpdatedHandler sampleReady [sampleOrder] ∧
    statusUpdateHandler sampleAccepted (statusUpdateHandler sampleAccepted (some sampleOrder)) =
        statusUpdateHandler sampleAccepted (some sampleOrder) ∧
    newOrderHandler sampleAccepted (newOrderHandler sampleAccepted [sampleOrder]) =
        sampleAccepted :: sampleAccepted :: [sampleOrder] :=
  snapshot_event_consumption sampleAccepted sampleReady [sampleOrder] (some sampleOrder) rfl

/-- The sample admin dashboard state after one load. -/
def sampleAdminClient : AdminClient :=
  { orders := [sampleOrder], connected := true, scheduledReconnects := [],
    fetchCount := 1 }

/-- The sample customer order-status page state after one load. -/
def sampleCustomerClient : CustomerClient :=
  { order := some sampleOrder, connected := true, scheduledReconnects := [],
    fetchCount := 1 }

/-- C5: reconnection performs no backfill — the stream-error and
reconnect steps change neither the admin dashboard's held orders nor the
customer page's held order, and neither performs a fetch; the synchronous
fetch happens only on the mount step, on both pages. -/
theorem reconnect_is_frame (a : AdminClient) (c : CustomerClient)
    (e : AdminEvent) (e' : CustomerEvent)
    (ha : e = AdminEvent.streamError ∨ e = AdminEvent.reconnectFired)
    (hc : e' = CustomerEvent.streamError ∨ e' = CustomerEvent.reconnectFired) :
    (adminStep e a).orders = a.orders ∧
    (adminStep e a).fetchCount = a.fetchCount ∧
    (customerStep e' c).order = c.order ∧
    (customerStep e' c).fetchCount = c.fetchCount ∧
    (∀ e₀ : AdminEvent, (adminStep e₀ a).fetchCount ≠ a.fetchCount →
        ∃ fetched, e₀ = AdminEvent.mount fetched) ∧
    (∀ e₀ : CustomerEvent, (customerStep e₀ c).fetchCount ≠ c.fetchCount →
        ∃ fetched, e₀ = CustomerEvent.mount fetched) := by
  have hadm : ∀ e₀ : AdminEvent, (adminStep e₀ a).fetchCount ≠ a.fetchCount →
      ∃ fetched, e₀ = AdminEvent.mount fetched := by
    intro e₀ he₀
    cases e₀ with
    | mount fetched => exact ⟨fetched, rfl⟩
    | sseNewOrder o => exact absurd rfl he₀
    | sseOrderUpdated o => exact absurd rfl he₀
    | streamError => exact absurd rfl he₀
    | reconnectFired => exact absurd rfl he₀
  have hcus : ∀ e₀ : CustomerEvent, (customerStep e₀ c).fetchCount ≠ c.fetchCount →
      ∃ fetched, e₀ = CustomerEvent.mount fetched := by
    intro e₀ he₀
    cases e₀ with
    | mount fetched => exact ⟨fetched, rfl⟩
    | sseStatusUpdate o => exact absurd rfl he₀
    | streamError => exact absurd rfl he₀
    | reconnectFired => exact absurd rfl he₀
  rcases ha with rfl | rfl <;> rcases hc with rfl | rfl <;>
    exact ⟨rfl, rfl, rfl, rfl, hadm, hcus⟩

/-- C5 witness: the frame facts at concrete client states spanning a
disconnect. -/
theorem reconnect_is_frame_witness :
    (adminStep AdminEvent.streamError sampleAdminClient).orders =
        sampleAdminClient.orders ∧
    (adminStep AdminEvent.streamError sampleAdminClient).fetchCount =
        sampleAdminClient.fetchCount ∧
    (customerStep CustomerEvent.reconnectFired sampleCustomerClient).order =
        sampleCustomerClient.order ∧
    (customerStep CustomerEvent.reconnectFired sampleCustomerClient).fetchCount =
        sampleCustomerClient.fetchCount ∧
    (∀ e₀ : AdminEvent,
        (adminStep e₀ sampleAdminClient).fetchCount ≠ sampleAdminClient.fetchCount →
        ∃ fetched, e₀ = AdminEvent.mount fetched) ∧
    (∀ e₀ : CustomerEvent,
        (customerStep e₀ sampleCustomerClient).fetchCount ≠ sampleCustomerClient.fetchCount →
        ∃ fetched, e₀ = CustomerEvent.mount fetched) :=
  reconnect_is_frame sampleAdminClient sampleCustomerClient
    AdminEvent.streamError CustomerEvent.reconnectFired (Or.inl rfl) (Or.inr rfl)

/-- getTotal's foldl, started from any accumulator, is the accumulator plus
the spec's map-sum subtotal. -/
theorem getTotal_foldl_sum (cart : List CartItem) (acc : ℚ) :
    cart.foldl (fun sum item => sum + item.price * (item.quantity : ℚ)) acc =
      acc + specSubtotal cart := by
  induction cart generalizing acc with
  | nil => simp [specSubtotal]
  | cons a t ih =>
      simp only [List.foldl_cons, specSubtotal, List.map_cons, List.sum_cons, ih]
      ring

/-- getTotal computes the spec's subtotal equation. -/
theorem getTotal_eq_specSubtotal (cart : List CartItem) :
    getTotal cart = specSubtotal cart := by
  simpa using getTotal_foldl_sum cart 0

/-- The menu item for the scenario's first line: unit price five dollars. -/
def burgerItem : MenuItem := { id := "m1", name := "Burger", price := 5, imageUrl := "" }

/-- The menu item for the scenario's second line: unit price three dollars. -/
def friesItem : MenuItem := { id := "m2", name := "Fries", price := 3, imageUrl := "" }

/-- The scenario's one-dollar modifier choice. -/
def sauceMod : Modifier := { modifierName := "Extras", label := "Sauce", price := 1 }

/-- The scenario cart, built through addToCart: quantity two of the
five-dollar item, then quantity one of the three-dollar item carrying the
one-dollar modifier. -/
def scenarioCart : List CartItem :=
  addToCart (addToCart [] burgerItem 2 "" []) friesItem 1 "" [sauceMod]

/-- The scenario's settings: taxRate 0.08, serviceFee 0. -/
def scenarioSettings : Settings := { taxRate := 8 / 100, serviceFee := 0 }

/-- Settings whose tax rate is zero, which JS's falsy-or treats like an
absent tax rate. -/
def zeroRateSettings : Settings := { taxRate := 0, serviceFee := 0 }

/-- C7 counterexample: with Settings whose taxRate is 0 the cart page does
not compute tax = subtotal × taxRate — the JS fallback
settings?.taxRate || 0.08 replaces a zero rate by the 0.08 default, so the
tax on the fourteen-dollar scenario cart is 1.12, not 0. -/
theorem zero_tax_rate_not_taken_from_settings :
    ¬(cartTax scenarioCart (some zeroRateSettings) =
        cartSubtotal scenarioCart * zeroRateSettings.taxRate) := by
  norm_num [cartTax, cartSubtotal, getTotal, scenarioCart, addToCart, sameLine,
    burgerItem, friesItem, sauceMod, List.findIdx?, effectiveTaxRate,
    zeroRateSettings]

/-- C7 (amended): for every cart and every Settings whose taxRate is nonzero
(a zero or missing taxRate falls back to the default 0.08, and a zero or
missing serviceFee falls back to 0, which coincides with the stored value),
the cart page computes subtotal = Σ line.price × line.quantity,
tax = subtotal × taxRate and total = subtotal + tax + serviceFee, and
CartContext.getTotal computes the same subtotal. -/
theorem cart_totals_equations (cart : List CartItem) (st : Settings)
    (h : st.taxRate ≠ 0) :
    getTotal cart = specSubtotal cart ∧
    cartSubtotal cart = specSubtotal cart ∧
    cartTax cart (some st) = specSubtotal cart * st.taxRate ∧
    cartTotal cart (some st) =
      specSubtotal cart + cartTax cart (some st) + st.serviceFee := by
  have hsub : getTotal cart = specSubtotal cart := getTotal_eq_specSubtotal cart
  have hrate : effectiveTaxRate (some st) = st.taxRate := by
    simp [effectiveTaxRate, h]
  have hfee : effectiveServiceFee (some st) = st.serviceFee := by
    by_cases hz : st.serviceFee = 0 <;> simp [effectiveServiceFee, hz]
  refine ⟨hsub, hsub, ?_, ?_⟩
  · simp [cartTax, cartSubtotal, hsub, hrate]
  · simp [cartTotal, cartSubtotal, hsub, hfee]

/-- C7 witness: the totals equations at the concrete scenario cart and its
nonzero tax rate. -/
theorem cart_totals_equations_witness :
    getTotal scenarioCart = specSubtotal scenarioCart ∧
    cartSubtotal scenarioCart = specSubtotal scenarioCart ∧
    cartTax scenarioCart (some scenarioSettings) =
      specSubtotal scenarioCart * scenarioSettings.taxRate ∧
    cartTotal scenarioCart (some scenarioSettings) =
      specSubtotal scenarioCart + cartTax scenarioCart (some scenarioSettings) +
        scenarioSettings.serviceFee :=
  cart_totals_equations scenarioCart scenarioSettings
    (by norm_num [scenarioSettings])

/-- C8 counterexample: on the scenario input the code does not produce
subtotal thirteen dollars, tax 1.04 and total 14.04 — the modifier dollar is
folded into the stored line price, so the subtotal is already fourteen. -/
theorem scenario_totals_not_as_spec :
    ¬(cartSubtotal scenarioCart = 13 ∧
      cartTax scenarioCart (some scenarioSettings) = 104 / 100 ∧
      cartTotal scenarioCart (some scenarioSettings) = 1404 / 100) := by
  rintro ⟨h13, -, -⟩
  revert h13
  norm_num [cartSubtotal, getTotal, scenarioCart, addToCart, sameLine,
    burgerItem, friesItem, sauceMod, List.findIdx?]

/-- C8 (amended): for the scenario input — quantity 2 at unit price five
dollars, and quantity 1 at unit price three dollars carrying a one-dollar
modifier, taxRate 0.08, serviceFee 0, with addToCart folding the modifier
price delta into the stored line price — the computed totals are
subtotal = 14.00, tax = 1.12, total = 15.12. -/
theorem scenario_totals :
    cartSubtotal scenarioCart = 14 ∧
    cartTax scenarioCart (some scenarioSettings) = 112 / 100 ∧
    cartTotal scenarioCart (some scenarioSettings) = 1512 / 100 := by
  refine ⟨?_, ?_, ?_⟩ <;>
    norm_num [cartTax, cartTotal, cartSubtotal, getTotal, scenarioCart,
      addToCart, sameLine, burgerItem, friesItem, sauceMod, List.findIdx?,
      effectiveTaxRate, effectiveServiceFee, scenarioSettings]

/-- The modifier-price foldl in addToCart, started from any accumulator, is
the accumulator plus the sum of the modifiers' price fields. -/
theorem modifier_foldl_sum (mods : List Modifier) (acc : ℚ) :
    mods.foldl (fun sum m => sum + m.price) acc =
      acc + (mods.map Modifier.price).sum := by
  induction mods generalizing acc with
  | nil => simp
  | cons m t ih =>
      simp only [List.foldl_cons, List.map_cons, List.sum_cons, ih]
      ring

/-- C9: addToCart merges duplicate lines — when some line matches the item
id, notes and modifier list, the first such line's quantity grows by the
given quantity, the line count is unchanged and every other position is
untouched; otherwise exactly one line is appended, priced at the item's base
price plus the sum of the selected modifiers' prices, with the existing
lines unchanged. -/
theorem addToCart_merges_or_appends (cart : List CartItem) (item : MenuItem)
    (q : ℤ) (notes : String) (mods : List Modifier) :
    (∀ i : ℕ, cart.findIdx? (sameLine item notes mods) = some i →
        (addToCart cart item q notes mods).length = cart.length ∧
        (addToCart cart item q notes mods)[i]? =
          (cart[i]?).map (fun l => { l with quantity := l.quantity + q }) ∧
        (∀ j : ℕ, j ≠ i → (addToCart cart item q notes mods)[j]? = cart[j]?)) ∧
    (cart.findIdx? (sameLine item notes mods) = none →
        addToCart cart item q notes mods =
          cart ++ [{ menuItemId := item.id, name := item.name,
                     price := item.price + (mods.map Modifier.price).sum,
                     basePrice := item.price, quantity := q, notes := notes,
                     modifiers := mods, imageUrl := item.imageUrl }]) := by
  constructor
  · intro i hi
    have hlt : i < cart.length := by
      obtain ⟨hlen, -, -⟩ := List.findIdx?_eq_some_iff_getElem.mp hi
      exact hlen
    have hget : cart[i]? = some cart[i] := List.getElem?_eq_getElem hlt
    simp only [addToCart, hi, hget]
    refine ⟨List.length_set cart i _, ?_, ?_⟩
    · rw [List.getElem?_set_self hlt]
      rfl
    · intro j hj
      exact List.getElem?_set_ne (fun hij => hj hij.symm)
  · intro hnone
    have hfold : mods.foldl (fun sum m => sum + m.price) 0 =
        (mods.map Modifier.price).sum := by
      simpa using modifier_foldl_sum mods 0
    simp only [addToCart, hnone, hfold]

/-- C9 witness: the append branch at the concrete scenario additions and the
merge branch when the first line is re-added. -/
theorem addToCart_merges_or_appends_witness :
    (addToCart [] burgerItem 2 "" [] =
        [] ++ [{ menuItemId := burgerItem.id, name := burgerItem.name,
                 price := burgerItem.price + ([].map Modifier.price).sum,
                 basePrice := burgerItem.price, quantity := 2, notes := "",
                 modifiers := [], imageUrl := burgerItem.imageUrl }]) ∧
    (addToCart scenarioCart burgerItem 3 "" []).length = scenarioCart.length ∧
    (addToCart scenarioCart burgerItem 3 "" [])[0]? =
      (scenarioCart[0]?).map (fun l => { l with quantity := l.quantity + 3 }) := by
  refine ⟨(addToCart_merges_or_appends [] burgerItem 2 "" []).2 rfl, ?_, ?_⟩
  · exact ((addToCart_merges_or_appends scenarioCart burgerItem 3 "" []).1 0
      (by norm_num [scenarioCart, addToCart, sameLine, burgerItem, friesItem,
        sauceMod, List.findIdx?])).1
  · exact ((addToCart_merges_or_appends scenarioCart burgerItem 3 "" []).1 0
      (by norm_num [scenarioCart, addToCart, sameLine, burgerItem, friesItem,
        sauceMod, List.findIdx?])).2.1

/-- Every line of removeFromCart's result was a line of the cart. -/
theorem mem_of_mem_removeFromCart {x : CartItem} {cart : List CartItem}
    {index : ℕ} (hx : x ∈ removeFromCart cart index) : x ∈ cart := by
  simp only [removeFromCart, List.mem_map, List.mem_filter] at hx
  obtain ⟨p, ⟨hmem, -⟩, rfl⟩ := hx
  exact List.getElem?_mem (List.mem_enum_iff_getElem?.mp hmem)

/-- One CartContext operation preserves positivity of all quantities, given
addToCart is called with a positive quantity. -/
theorem cartOp_preserves_positive (cart : List CartItem) (op : CartOp)
    (hop : op.addsPositive = true)
    (hinv : ∀ l ∈ cart, 1 ≤ l.quantity) :
    ∀ l ∈ applyCartOp cart op, 1 ≤ l.quantity := by
  cases op with
  | add item q notes mods =>
      have hq : 1 ≤ q := by simpa [CartOp.addsPositive] using hop
      intro l hl
      simp only [applyCartOp] at hl
      rcases hfind : cart.findIdx? (sameLine item notes mods) with _ | i
      · simp only [addToCart, hfind] at hl
        rcases List.mem_append.mp hl with h | h
        · exact hinv l h
        · have hl' := List.mem_singleton.mp h
          subst hl'
          simpa using hq
      · simp only [addToCart, hfind] at hl
        rcases hget : cart[i]? with _ | existing
        · rw [hget] at hl
          exact hinv l hl
        · rw [hget] at hl
          rcases List.mem_or_eq_of_mem_set hl with h | rfl
          · exact hinv l h
          · have hex : 1 ≤ existing.quantity := hinv existing (List.getElem?_mem hget)
            simp only []
            omega
  | update index q =>
      intro l hl
      simp only [applyCartOp, updateQuantity] at hl
      by_cases hq : q ≤ 0
      · rw [if_pos hq] at hl
        exact hinv l (mem_of_mem_removeFromCart hl)
      · rw [if_neg hq] at hl
        rcases hget : cart[index]? with _ | existing
        · rw [hget] at hl
          exact hinv l hl
        · rw [hget] at hl
          rcases List.mem_or_eq_of_mem_set hl with h | rfl
          · exact hinv l h
          · simp only []
            omega
  | remove index =>
      intro l hl
      exact hinv l (mem_of_mem_removeFromCart (by simpa [applyCartOp] using hl))
  | clear =>
      intro l hl
      simp [applyCartOp, clearCart] at hl

/-- A sequence of CartContext operations whose additions all carry positive
quantities preserves positivity of all quantities. -/
theorem cartOps_preserve_positive : ∀ (ops : List CartOp) (cart : List CartItem),
    (∀ op ∈ ops, op.addsPositive = true) →
    (∀ l ∈ cart, 1 ≤ l.quantity) →
    ∀ line ∈ applyCartOps cart ops, 1 ≤ line.quantity := by
  intro ops
  induction ops with
  | nil =>
      intro cart _ hinv
      simpa [applyCartOps] using hinv
  | cons op ops ih =>
      intro cart h hinv
      simp only [applyCartOps, List.foldl_cons]
      exact ih (applyCartOp cart op) (fun o ho => h o (List.mem_cons_of_mem _ ho))
        (cartOp_preserves_positive cart op (h op (List.mem_cons_self _ _)) hinv)

/-- C10: starting from the empty cart, after any sequence of CartContext
operations whose addToCart calls carry quantity at least 1, every cart line
has quantity at least 1; and updateQuantity with a non-positive quantity
removes the line instead of storing it. -/
theorem cart_quantities_positive (ops : List CartOp)
    (h : ∀ op ∈ ops, op.addsPositive = true) :
    (∀ line ∈ applyCartOps [] ops, 1 ≤ line.quantity) ∧
    (∀ (cart : List CartItem) (index : ℕ) (q : ℤ), q ≤ 0 →
        updateQuantity cart index q = removeFromCart cart index) :=
  ⟨cartOps_preserve_positive ops [] h (by simp),
   fun cart index q hq => by simp [updateQuantity, hq]⟩

/-- A concrete operation sequence: two additions, a decrement past zero
(which removes the line), and a removal. -/
def sampleOps : List CartOp :=
  [CartOp.add burgerItem 2 "" [], CartOp.add friesItem 1 "" [sauceMod],
   CartOp.update 0 (-1), CartOp.remove 0]

/-- C10 witness: the invariant at the concrete operation sequence. -/
theorem cart_quantities_positive_witness :
    (∀ line ∈ applyCartOps [] sampleOps, 1 ≤ line.quantity) ∧
    (∀ (cart : List CartItem) (index : ℕ) (q : ℤ), q ≤ 0 →
        updateQuantity cart index q = removeFromCart cart index) :=
  cart_quantities_positive sampleOps (by
    intro op hop
    simp only [sampleOps, List.mem_cons, List.not_mem_nil, or_false] at hop
    rcases hop with rfl | rfl | rfl | rfl <;> simp [CartOp.addsPositive])

end CafeApp
